import Mathlib

/-!
Shallow embedding of `sales_bot.py`, a small Telegram shop bot.

The bot has three parts that the properties below are about:

* a SQLite-backed product store (`init_db`, `get_products`), modelled as a
  `List Product` in insertion (rowid) order; a store that cannot be reached
  (every sqlite call raises, and the code catches the exception) is modelled
  as `none : Option (List Product)`;
* a two-state AI conversation driven by `ConversationHandler`: handlers
  return the integer `ASK_AI_QUESTION = 1` to stay in the question-collecting
  state or `ConversationHandler.END = -1` to end the conversation (IDLE);
  the global Gemini `model` is `Option Unit` (`none` when `GOOGLE_API_KEY`
  is absent or initialization failed), and the outcome of a single
  `model.generate_content` call is an environment parameter
  `Except Unit String` (`ok` carries `response.text`, `error` a raised
  exception);
* the handler registration in `main`, modelled by `dispatch`: all handlers
  are added to the default group, so the first matching handler (in
  registration order) handles an update, and an update matching no handler
  produces no outbound message at all.

Handlers record the text replies they send (in order) and how many
`generate_content` calls they make.
-/

namespace SalesBot

/-- Product: one row of the `products` table (name, description, price,
image_url), as selected by `get_products`. -/
structure Product where
  name : String
  description : String
  price : ℚ
  image_url : String
  deriving Repr, DecidableEq

/-- The two sample products that `init_db` inserts when the `products` table
is empty, in insertion order. -/
def sampleProducts : List Product :=
  [⟨"Ноутбук ProX", "Мощный ноутбук для работы и игр.", 1200,
    "https://upload.wikimedia.org/wikipedia/commons/thumb/b/b3/Laptop_computer_on_table.jpg/640px-Laptop_computer_on_table.jpg"⟩,
   ⟨"Смартфон Ultra", "Флагманский смартфон с лучшей камерой.", 800,
    "https://upload.wikimedia.org/wikipedia/commons/thumb/c/c2/IPhone_14_Pro_Max_mockup.png/640px-IPhone_14_Pro_Max_mockup.png"⟩]

/-- The seeding step of `init_db`: `SELECT COUNT(*)`, and only when the count
is 0 insert the two sample rows. -/
def seedIfEmpty (store : List Product) : List Product :=
  if store.length = 0 then store ++ sampleProducts else store

/-- init_db: connect, `CREATE TABLE IF NOT EXISTS`, seed when empty, commit.
Any exception (including an unreachable store, `none`) is caught and logged,
leaving the store as it was. -/
def init_db : Option (List Product) → Option (List Product)
  | none => none
  | some store => some (seedIfEmpty store)

/-- get_products: `SELECT name, description, price, image_url FROM products`.
Any exception (unreachable store) is caught and an empty list returned. -/
def get_products : Option (List Product) → List Product
  | none => []
  | some store => store

/-- Conversation state constant for the AI dialog (`ASK_AI_QUESTION = 1`). -/
def ASK_AI_QUESTION : Int := 1

namespace ConversationHandler

/-- The framework constant ending a conversation (`ConversationHandler.END = -1`). -/
def END : Int := -1

end ConversationHandler

/-- The unavailability message sent when the Gemini model handle is `None`. -/
def ai_unavailable_msg : String :=
  "Извините, функция ИИ сейчас недоступна. Пожалуйста, убедитесь, что GOOGLE_API_KEY установлен правильно."

/-- The prompt sent on entering the AI dialog. -/
def ask_ready_msg : String :=
  "Я готов отвечать на ваши вопросы! Спросите меня о чем угодно. Чтобы закончить диалог с ИИ, введите /done"

/-- The two-choice menu message re-sent after most actions. -/
def choose_next_msg : String := "Выберите следующее действие:"

/-- The re-prompt sent for an empty (falsy) question text. -/
def enter_text_msg : String := "Пожалуйста, введите ваш вопрос текстом."

/-- The apology sent when `generate_content` raises. -/
def ai_error_msg : String :=
  "Извините, произошла ошибка при обработке вашего запроса ИИ. Пожалуйста, попробуйте еще раз."

/-- The closing acknowledgment sent by `done_ai_dialog`. -/
def done_msg : String := "Диалог с ИИ завершен. Чем еще могу помочь?"

/-- The unknown-input fallback message. -/
def unknown_msg : String :=
  "Извините, я не понял вашу команду. Используйте кнопки для взаимодействия."

/-- The message sent when the product list is empty. -/
def no_products_msg : String := "В магазине пока нет товаров."

/-- The greeting of `start_command` (the user mention is elided: no property
depends on it). -/
def start_msg : String := "Привет! Я бот-магазин. Выберите действие:"

/-- The `/help` text. -/
def help_msg : String :=
  "Используйте команды: /start, /help. Или кнопки для взаимодействия."

/-- What a conversation handler produces: the integer state it returns to the
framework, the reply texts it sends (in order), and how many
`generate_content` calls it makes. -/
structure HandlerResult where
  state : Int
  msgs : List String
  ai_calls : Nat
  deriving Repr, DecidableEq

/-- ask_ai_entry_point: with a callback query it answers it and replies to
`query.message`; with only a plain message it replies to that; with neither it
returns `END` silently. If `model is None` it sends the unavailability message
and returns `END`; otherwise it sends the ready prompt (plus, in the callback
case, the two-choice menu) and returns `ASK_AI_QUESTION`. -/
def ask_ai_entry_point (has_query : Bool) (has_message : Bool)
    (model : Option Unit) : HandlerResult :=
  if has_query || has_message then
    match model with
    | none => ⟨ConversationHandler.END, [ai_unavailable_msg], 0⟩
    | some _ =>
        ⟨ASK_AI_QUESTION,
         ask_ready_msg :: (if has_query then [choose_next_msg] else []), 0⟩
  else
    ⟨ConversationHandler.END, [], 0⟩

/-- handle_ai_question: an empty (falsy) `update.message.text` gets the
re-prompt and stays in `ASK_AI_QUESTION`; `model is None` gets the
unavailability message and `END`; otherwise one `generate_content` call is
made, its `response.text` (or, when it raises, the apology) is sent, and the
state stays `ASK_AI_QUESTION` either way. -/
def handle_ai_question (user_question : String) (model : Option Unit)
    (gen : Except Unit String) : HandlerResult :=
  if user_question = "" then
    ⟨ASK_AI_QUESTION, [enter_text_msg], 0⟩
  else
    match model with
    | none => ⟨ConversationHandler.END, [ai_unavailable_msg], 0⟩
    | some _ =>
        match gen with
        | .ok ans => ⟨ASK_AI_QUESTION, [ans], 1⟩
        | .error _ => ⟨ASK_AI_QUESTION, [ai_error_msg], 1⟩

/-- done_ai_dialog: send the closing acknowledgment (with the two-choice menu
keyboard) and return `END`. -/
def done_ai_dialog : HandlerResult :=
  ⟨ConversationHandler.END, [done_msg], 0⟩

/-- One rendered product block of `show_products_callback` (the `:.2f` price
formatting is abstracted to `toString`; no property depends on it). -/
def render_product (p : Product) : String :=
  "<b>" ++ p.name ++ "</b>\n" ++ "Описание: " ++ p.description ++ "\n" ++
    "Цена: $" ++ toString p.price ++ "\n" ++
    (if p.image_url ≠ "" then "Изображение: " ++ p.image_url ++ "\n" else "") ++
    "\n"

/-- The full listing text of `show_products_callback`. -/
def render_products (ps : List Product) : String :=
  "Вот что есть в нашем магазине:\n\n" ++ String.join (ps.map render_product)

/-- show_products_callback: answer the callback, read the products; a
non-empty list gets the listing, an empty one gets the no-products message;
both are followed by the two-choice menu. -/
def show_products_callback (store : Option (List Product)) : List String :=
  let products := get_products store
  if products ≠ [] then
    [render_products products, choose_next_msg]
  else
    [no_products_msg, choose_next_msg]

/-- The router-level view of the per-chat conversation state: no active
conversation (IDLE) or the active `ASK_AI_QUESTION` state. -/
inductive DialogState where
  | IDLE
  | AWAITING_AI_QUESTION
  deriving Repr, DecidableEq

/-- An inbound update, as the registered filters see it: a bot command
`/name`, a button-press callback with its data, or a plain text message
(possibly with empty/absent text, which matches no `filters.TEXT`). -/
inductive Event where
  | command (name : String)
  | callback (data : String)
  | text (body : String)
  deriving Repr, DecidableEq

/-- Which registered handler handled an update. -/
inductive HandlerName where
  | startCmd
  | helpCmd
  | showProducts
  | askAiEntry
  | aiQuestion
  | doneDialog
  | unknownMsg
  deriving Repr, DecidableEq

/-- Outcome of dispatching one update: the resulting conversation state, the
handler that ran (`none` when no registered handler matched, in which case no
response is sent), the replies, and the number of AI calls. -/
structure DispatchResult where
  state : DialogState
  handler : Option HandlerName
  msgs : List String
  ai_calls : Nat
  deriving Repr, DecidableEq

/-- How the framework interprets a conversation handler's return value:
`ASK_AI_QUESTION` keeps (or enters) the question state, `END` ends the
conversation (back to IDLE). The handlers return no other value. -/
def stateOfReturn (prev : DialogState) (r : Int) : DialogState :=
  if r = ASK_AI_QUESTION then DialogState.AWAITING_AI_QUESTION
  else if r = ConversationHandler.END then DialogState.IDLE
  else prev

/-- The dispatch wired up in `main`, in registration order (all handlers in
the default group, so the first match wins):
`CommandHandler start`, `CommandHandler help`,
`CallbackQueryHandler show_products`, the `ConversationHandler`
(entry point: callback `ask_ai`; in state `ASK_AI_QUESTION`:
`filters.TEXT & ~filters.COMMAND` → handle_ai_question and `/done` →
done_ai_dialog; fallbacks are checked only while the conversation is active),
and finally `MessageHandler (filters.TEXT & ~filters.COMMAND)` →
unknown_command. `filters.TEXT` requires non-empty text and
`~filters.COMMAND` excludes commands. -/
def dispatch (store : Option (List Product)) (model : Option Unit)
    (gen : Except Unit String) (st : DialogState) (e : Event) : DispatchResult :=
  match e with
  | .command n =>
      if n = "start" then
        ⟨st, some HandlerName.startCmd, [start_msg], 0⟩
      else if n = "help" then
        ⟨st, some HandlerName.helpCmd, [help_msg], 0⟩
      else if n = "done" ∧ st = DialogState.AWAITING_AI_QUESTION then
        let r := done_ai_dialog
        ⟨stateOfReturn st r.state, some HandlerName.doneDialog, r.msgs, r.ai_calls⟩
      else
        ⟨st, none, [], 0⟩
  | .callback d =>
      if d = "show_products" then
        ⟨st, some HandlerName.showProducts, show_products_callback store, 0⟩
      else if d = "ask_ai" ∧ st = DialogState.IDLE then
        let r := ask_ai_entry_point true false model
        ⟨stateOfReturn st r.state, some HandlerName.askAiEntry, r.msgs, r.ai_calls⟩
      else
        ⟨st, none, [], 0⟩
  | .text b =>
      if st = DialogState.AWAITING_AI_QUESTION ∧ b ≠ "" then
        let r := handle_ai_question b model gen
        ⟨stateOfReturn st r.state, some HandlerName.aiQuestion, r.msgs, r.ai_calls⟩
      else if b ≠ "" then
        ⟨st, some HandlerName.unknownMsg, [unknown_msg], 0⟩
      else
        ⟨st, none, [], 0⟩

/-- Whether some registered handler matches the update in the given state
(read off the registration in `main`). -/
def matches_some_handler (st : DialogState) (e : Event) : Bool :=
  match e with
  | .command n =>
      n = "start" || n = "help" ||
        (n = "done" && st = DialogState.AWAITING_AI_QUESTION)
  | .callback d =>
      d = "show_products" || (d = "ask_ai" && st = DialogState.IDLE)
  | .text b => !(b = "")
/-- Helper: `show_products_callback` always sends at least one message. -/
theorem show_products_callback_msgs_nonempty (store : Option (List Product)) :
    (show_products_callback store).isEmpty = false := by
  unfold show_products_callback
  by_cases h : get_products store ≠ [] <;> simp [h]

/-- Helper: the callback-triggered AI entry always sends at least one message. -/
theorem ask_ai_entry_point_msgs_nonempty (m : Option Unit) :
    (ask_ai_entry_point true false m).msgs.isEmpty = false := by
  cases m <;> simp [ask_ai_entry_point]

/-- Helper: the question handler always sends at least one message. -/
theorem handle_ai_question_msgs_nonempty (q : String) (m : Option Unit)
    (g : Except Unit String) :
    (handle_ai_question q m g).msgs.isEmpty = false := by
  unfold handle_ai_question
  by_cases h : q = "" <;> cases m <;> cases g <;> simp [h]

/-- C1: every handler of the AI conversation (entry, question handling,
termination) returns either the `ASK_AI_QUESTION` state or the
conversation-end (IDLE) value `ConversationHandler.END`, never any other
state. -/
theorem ai_handlers_return_only_enumerated_states :
    (∀ hq hm m, (ask_ai_entry_point hq hm m).state = ASK_AI_QUESTION ∨
      (ask_ai_entry_point hq hm m).state = ConversationHandler.END) ∧
    (∀ q m g, (handle_ai_question q m g).state = ASK_AI_QUESTION ∨
      (handle_ai_question q m g).state = ConversationHandler.END) ∧
    done_ai_dialog.state = ConversationHandler.END := by
  refine ⟨?_, ?_, rfl⟩
  · intro hq hm m
    unfold ask_ai_entry_point
    cases m <;> cases hq <;> cases hm <;> simp
  · intro q m g
    unfold handle_ai_question
    by_cases h : q = "" <;> cases m <;> cases g <;> simp [h]

/-- C2: with the AI model unconfigured (`model = none`), every reachable
invocation of the AI-flow entry point (a callback query or a message is
present) emits the unavailability message, makes no AI call, and returns the
conversation-end value; at dispatch level the session state stays `IDLE`. -/
theorem unconfigured_ai_entry_keeps_idle :
    (∀ hq hm, hq = true ∨ hm = true →
      ask_ai_entry_point hq hm none =
        ⟨ConversationHandler.END, [ai_unavailable_msg], 0⟩) ∧
    (∀ store g,
      dispatch store none g DialogState.IDLE (Event.callback "ask_ai") =
        ⟨DialogState.IDLE, some HandlerName.askAiEntry, [ai_unavailable_msg], 0⟩) := by
  constructor
  · intro hq hm h
    cases hq <;> cases hm <;> simp_all [ask_ai_entry_point]
  · intro store g
    rfl

/-- C2 witness: the entry point invoked with a callback query and no model. -/
theorem unconfigured_ai_entry_keeps_idle_witness :
    ask_ai_entry_point true false none =
      ⟨ConversationHandler.END, [ai_unavailable_msg], 0⟩ :=
  unconfigured_ai_entry_keeps_idle.1 true false (Or.inl rfl)

/-- C3: a non-empty question with the AI configured triggers exactly one AI
call, emits the answer on success or the failure apology on error, and in
both cases returns `ASK_AI_QUESTION` (the self-loop holds). -/
theorem nonempty_question_self_loop (q : String) (g : Except Unit String)
    (h : q ≠ "") :
    (handle_ai_question q (some ()) g).state = ASK_AI_QUESTION ∧
    (handle_ai_question q (some ()) g).ai_calls = 1 ∧
    (handle_ai_question q (some ()) g).msgs =
      [match g with | .ok a => a | .error _ => ai_error_msg] := by
  cases g <;> simp [handle_ai_question, h]

/-- C3 witness: a concrete successful exchange. -/
theorem nonempty_question_self_loop_witness :
    (handle_ai_question "Вопрос" (some ()) (Except.ok "Ответ")).state = ASK_AI_QUESTION ∧
    (handle_ai_question "Вопрос" (some ()) (Except.ok "Ответ")).ai_calls = 1 ∧
    (handle_ai_question "Вопрос" (some ()) (Except.ok "Ответ")).msgs =
      [match (Except.ok "Ответ" : Except Unit String) with
       | .ok a => a | .error _ => ai_error_msg] :=
  nonempty_question_self_loop "Вопрос" (Except.ok "Ответ") (by decide)

/-- C4 counterexample: a `/done` command while the session is `IDLE` matches
no registered handler, so it produces no response at all (silence), refuting
the claim that it produces a closing-style response. -/
theorem done_while_idle_silent :
    dispatch none none (Except.ok "") DialogState.IDLE (Event.command "done") =
      ⟨DialogState.IDLE, none, [], 0⟩ := rfl

/-- C4 amended: `/done` during the AI dialog ends it with the closing
response; `/done` while already `IDLE` leaves the state `IDLE` but matches no
handler and produces no response (silence), because the conversation
fallbacks fire only while the conversation is active and the catch-all
excludes commands. -/
theorem done_idempotent_on_state_but_silent_from_idle
    (store : Option (List Product)) (model : Option Unit)
    (g : Except Unit String) :
    dispatch store model g DialogState.AWAITING_AI_QUESTION (Event.command "done") =
      ⟨DialogState.IDLE, some HandlerName.doneDialog, [done_msg], 0⟩ ∧
    dispatch store model g DialogState.IDLE (Event.command "done") =
      ⟨DialogState.IDLE, none, [], 0⟩ := ⟨rfl, rfl⟩

/-- C5: seeding an empty store and then listing returns exactly the seeded
sample products, in insertion order. -/
theorem seed_then_list_roundtrip :
    get_products (init_db (some [])) = sampleProducts := rfl

/-- C6 counterexample: an unregistered command (here `/oops`, but likewise
any command other than `/start`, `/help`, or `/done` inside the dialog)
matches no handler and receives no response, refuting "every event receives
exactly one outbound response". -/
theorem unregistered_command_no_response :
    dispatch none none (Except.error ()) DialogState.IDLE (Event.command "oops") =
      ⟨DialogState.IDLE, none, [], 0⟩ := rfl

/-- C6 amended: every event is handled by at most one handler (all handlers
share the default group, so the first match wins and the rest are skipped),
and an event produces at least one outbound response exactly when some
registered handler matches it; events matching no handler (unregistered
commands, `/done` from `IDLE`, an `ask_ai` callback during the dialog, empty
text) are dropped with no response. -/
theorem dispatch_response_iff_handled (store : Option (List Product))
    (model : Option Unit) (g : Except Unit String) (st : DialogState)
    (e : Event) :
    ((dispatch store model g st e).handler).isSome = matches_some_handler st e ∧
    (dispatch store model g st e).msgs.isEmpty = !(matches_some_handler st e) := by
  cases e with
  | command n =>
      by_cases h1 : n = "start"
      · simp [dispatch, matches_some_handler, h1]
      · by_cases h2 : n = "help"
        · simp [dispatch, matches_some_handler, h1, h2]
        · by_cases h3 : n = "done"
          · cases st with
            | IDLE => simp [dispatch, matches_some_handler, h1, h2, h3]
            | AWAITING_AI_QUESTION =>
                simp [dispatch, matches_some_handler, h1, h2, h3, done_ai_dialog]
          · simp [dispatch, matches_some_handler, h1, h2, h3]
  | callback d =>
      by_cases h1 : d = "show_products"
      · simp [dispatch, matches_some_handler, h1,
          show_products_callback_msgs_nonempty]
      · by_cases h2 : d = "ask_ai"
        · cases st with
          | IDLE =>
              simp [dispatch, matches_some_handler, h1, h2,
                ask_ai_entry_point_msgs_nonempty]
          | AWAITING_AI_QUESTION => simp [dispatch, matches_some_handler, h1, h2]
        · simp [dispatch, matches_some_handler, h1, h2]
  | text b =>
      by_cases h1 : st = DialogState.AWAITING_AI_QUESTION ∧ b ≠ ""
      · simp [dispatch, matches_some_handler, h1,
          handle_ai_question_msgs_nonempty]
      · by_cases h2 : b = "" <;>
          simp_all [dispatch, matches_some_handler]

/-- C7: a failed store read returns the empty sequence rather than
propagating, and the catalog responder treats a failed read and an empty
store identically, reporting the no-products message. -/
theorem store_failure_treated_as_empty :
    get_products none = ([] : List Product) ∧
    show_products_callback none = show_products_callback (some []) ∧
    show_products_callback none = [no_products_msg, choose_next_msg] :=
  ⟨rfl, rfl, rfl⟩

/-- C8: an empty (falsy) question text gets the validation re-prompt, no AI
call, and the state stays `ASK_AI_QUESTION`, whatever the model and the AI
environment are. -/
theorem empty_question_reprompt (m : Option Unit) (g : Except Unit String) :
    handle_ai_question "" m g = ⟨ASK_AI_QUESTION, [enter_text_msg], 0⟩ := by
  cases m <;> rfl

/-- C9: `init_db` is idempotent (running it twice equals running it once), and
on any non-empty store it changes nothing. -/
theorem init_db_idempotent (s : Option (List Product)) :
    init_db (init_db s) = init_db s ∧
    (∀ l, s = some l → l ≠ [] → init_db s = s) := by
  constructor
  · cases s with
    | none => rfl
    | some l =>
        simp only [init_db, Option.some.injEq]
        by_cases h : l.length = 0
        · simp [seedIfEmpty, h, sampleProducts]
        · simp [seedIfEmpty, h]
  · rintro l rfl hl
    simp [init_db, seedIfEmpty, List.length_eq_zero, hl]

/-- C9 witness: a store already holding the sample products is unchanged. -/
theorem init_db_idempotent_witness :
    init_db (some sampleProducts) = some sampleProducts :=
  (init_db_idempotent (some sampleProducts)).2 sampleProducts rfl (by decide)

/-- C10: the question handler re-checks AI availability inside the dialog —
with the model absent and a non-empty question it emits the unavailability
message, makes no AI call, and ends the conversation rather than
re-prompting. -/
theorem question_handler_rechecks_model (q : String) (g : Except Unit String)
    (h : q ≠ "") :
    handle_ai_question q none g =
      ⟨ConversationHandler.END, [ai_unavailable_msg], 0⟩ := by
  simp [handle_ai_question, h]

/-- C10 witness: a concrete question with the model absent. -/
theorem question_handler_rechecks_model_witness :
    handle_ai_question "Вопрос" none (Except.error ()) =
      ⟨ConversationHandler.END, [ai_unavailable_msg], 0⟩ :=
  question_handler_rechecks_model "Вопрос" (Except.error ()) (by decide)

end SalesBot
